import Mathlib

/-!
Verification of the k6 load-testing scripts (Kafka producer/consumer and
Postgres CRUD workloads) against their natural-language specification.

The scripts are shallowly embedded: each workload's per-iteration body is a
Lean function from its inputs (configuration, the batch returned or error
raised by the backend call, data-generation results) to the list of metric
samples it records plus its state effects.  Metric sinks are modelled as the
list of samples a workload emits; a Counter's aggregate is the running sum of
the samples on its series.
-/


/-! ## Metric samples and series -/

/-- A value recorded on a metric series: k6 `add` accepts numbers and, for
`Rate` series, booleans. -/
inductive MVal where
  | num (n : Int)
  | tf (b : Bool)
deriving DecidableEq

/-- Numeric view of a recorded value (k6 records `true` as 1, `false` as 0). -/
def MVal.toNum : MVal → Int
  | .num n => n
  | .tf b => if b then 1 else 0

/-- One sample handed to the metric sink: series name plus value. -/
structure Sample where
  series : String
  val : MVal
deriving DecidableEq

/-- Contribution of one sample to the aggregate of the series `name`. -/
def sampleContrib (name : String) (s : Sample) : Int :=
  if s.series = name then s.val.toNum else 0

/-- Final aggregate of a Counter series over a stream of samples: the sum of
all values added on that series. -/
def seriesTotal (name : String) (samples : List Sample) : Int :=
  (samples.map (sampleContrib name)).sum

/-- Running aggregates of a Counter series after each successive sample. -/
def runningTotals (name : String) (samples : List Sample) : List Int :=
  samples.scanl (fun acc s => acc + sampleContrib name s) 0

/-- The series declared as `Counter` across the four workload scripts
(`perf_crud_tb.js`, `consumer.js`, the two producer scripts). -/
def counterSeriesNames : List String :=
  ["rows_inserted", "rows_updated", "rows_selected", "rows_deleted",
   "kafka_messages_read_count", "kafka_consumed_bytes", "kafka_empty_reads",
   "kafka_reader_error_count", "kafka_timeout_errors",
   "kafka_produced_bytes", "kafka_produced_messages"]

/-- Whether a series name is one of the scripts' Counter series. -/
def isCounterSeries (name : String) : Bool :=
  counterSeriesNames.contains name

/-! ## JS string primitives used by the scripts -/

/-- Boolean prefix test on character lists (helper for `jsIncludes`). -/
def charsStartWith : List Char → List Char → Bool
  | [], _ => true
  | _ :: _, [] => false
  | a :: p, b :: s => a == b && charsStartWith p s

/-- Substring test on character lists (helper for `jsIncludes`). -/
def charsContain (p : List Char) : List Char → Bool
  | [] => charsStartWith p []
  | c :: rest => charsStartWith p (c :: rest) || charsContain p rest

/-- Model of JS `String.prototype.includes(pat)`. -/
def jsIncludes (s pat : String) : Bool :=
  charsContain pat.data s.data

/-- Model of JS `str.split(',')`, at the character-list level: splits into the
(possibly empty) groups between commas. -/
def splitCommaChars : List Char → List (List Char)
  | [] => [[]]
  | c :: rest =>
    match splitCommaChars rest with
    | [] => [[]]
    | grp :: gs => if c = ',' then [] :: grp :: gs else (c :: grp) :: gs

/-- Model of JS `str.split(',')` on strings. -/
def jsSplitComma (s : String) : List String :=
  (splitCommaChars s.data).map List.asString

/-- Model of JS `parseInt(s)` on the decimal strings the scripts pass it:
skips leading spaces, accepts an optional sign, then reads the longest run
of decimal digits; `none` models `NaN`. -/
def parseIntJS (s : String) : Option Int :=
  let t := s.data.dropWhile (fun c => c = ' ')
  let run : List Char → Option Int := fun l =>
    let ds := l.takeWhile Char.isDigit
    if ds.isEmpty then none
    else some (ds.foldl (fun a c => 10 * a + ((c.toNat : Int) - 48)) 0)
  match t with
  | '-' :: rest => (run rest).map (fun n => -n)
  | '+' :: rest => run rest
  | _ => run t

/-! ## Environment-variable configuration (`__ENV` / `process.env`) -/

/-- A process environment: maps a variable name to its value, if set. -/
def Env : Type := String → Option String

/-- Model of `__ENV.K || 'default'` for the string-valued options. -/
def envOr (env : Env) (k dflt : String) : String :=
  (env k).getD dflt

/-- Configuration read by the improved consumer script (`consumer.js`,
lines 10-14). -/
structure ConsumerConfig where
  KAFKA_BROKERS : List String
  KAFKA_TOPIC : String
  KAFKA_GROUP_ID : String
  CONSUME_TIMEOUT_MS : Option Int
  MAX_EMPTY_READS : Option Int
deriving DecidableEq

/-- `consumer.js`: `(__ENV.KAFKA_BROKERS || 'localhost:9092').split(',')` and
the four option constants below it. -/
def consumerConfig (env : Env) : ConsumerConfig where
  KAFKA_BROKERS := jsSplitComma (envOr env "KAFKA_BROKERS" "localhost:9092")
  KAFKA_TOPIC := envOr env "KAFKA_TOPIC" "my-test-topic"
  KAFKA_GROUP_ID := envOr env "KAFKA_GROUP_ID" "k6-consumer-group"
  CONSUME_TIMEOUT_MS := parseIntJS (envOr env "CONSUME_TIMEOUT_MS" "2000")
  MAX_EMPTY_READS := parseIntJS (envOr env "MAX_EMPTY_READS" "5")

/-- Configuration read by the improved producer script (lines 11-14). -/
structure ImprovedProducerConfig where
  KAFKA_BROKERS : List String
  KAFKA_TOPIC : String
  DELETE_TOPIC_ON_TEARDOWN : Bool
deriving DecidableEq

/-- Improved producer: `(__ENV.KAFKA_BROKERS || 'localhost:9094').split(',')`,
`__ENV.KAFKA_TOPIC || 'my-test-topic'`, and
`__ENV.DELETE_TOPIC_ON_TEARDOWN === 'true'`. -/
def improvedProducerConfig (env : Env) : ImprovedProducerConfig where
  KAFKA_BROKERS := jsSplitComma (envOr env "KAFKA_BROKERS" "localhost:9094")
  KAFKA_TOPIC := envOr env "KAFKA_TOPIC" "my-test-topic"
  DELETE_TOPIC_ON_TEARDOWN := env "DELETE_TOPIC_ON_TEARDOWN" == some "true"

/-! ## Consumer workload (`consumer.js`, improved script) -/

/-- A Kafka message as seen by the consumer; `key`/`value` may be null. -/
structure KMessage where
  key : Option String
  value : Option String
deriving DecidableEq

/-- Outcome of one `reader.consume({limit: 10, timeout: ...})` call: either a
(possibly empty) batch, or a thrown error with its message text. -/
inductive ConsumeResult where
  | batch (msgs : List KMessage)
  | err (msg : String)
deriving DecidableEq

/-- Model of `(msg.key && msg.key.length) || 0`. -/
def jsLenOrZero (o : Option String) : Nat :=
  match o with
  | some s => s.length
  | none => 0

/-- Observable effect of one invocation of the consumer's `default` function:
the metric samples recorded (in order), whether the
`emptyReadCount >= MAX_EMPTY_READS` early-return ("... stopping") executed,
and whether the reader was closed and nulled (real-error path). -/
structure ConsumerEffect where
  samples : List Sample
  reachedMaxStop : Bool
  readerReset : Bool
deriving DecidableEq

/-- One invocation of the consumer's `default` function (`consumer.js`,
lines 63-157).  `readerCreateFails` selects the reader-construction catch
path at the top; otherwise the body runs on the given consume outcome.
`emptyReadCount` is a `let`-bound local of the function in the source
(`let emptyReadCount = 0;`), so every invocation starts it at 0. -/
def consumerIteration (MAX_EMPTY_READS : Nat) (readerCreateFails : Bool)
    (res : ConsumeResult) : ConsumerEffect :=
  if readerCreateFails then
    { samples := [⟨"kafka_reader_error_count", .num 1⟩],
      reachedMaxStop := false, readerReset := false }
  else
    let emptyReadCount : Nat := 0
    match res with
    | .batch msgs =>
      -- checks: 'messages were consumed' (length > 0) and
      -- 'consume operation succeeded' (batch not null); on failure the
      -- script does readerErrors.add(1)
      let checksSuccess := decide (msgs.length > 0)
      let checkSamples : List Sample :=
        if checksSuccess then [] else [⟨"kafka_reader_error_count", .num 1⟩]
      if msgs.length > 0 then
        let bytes : Nat :=
          msgs.foldl (fun acc m => acc + jsLenOrZero m.key + jsLenOrZero m.value) 0
        { samples := checkSamples ++
            [⟨"kafka_messages_read_count", .num (msgs.length : Int)⟩,
             ⟨"kafka_consumed_bytes", .num (bytes : Int)⟩],
          reachedMaxStop := false, readerReset := false }
      else
        { samples := checkSamples ++ [⟨"kafka_empty_reads", .num 1⟩],
          reachedMaxStop := decide (emptyReadCount + 1 ≥ MAX_EMPTY_READS),
          readerReset := false }
    | .err msg =>
      if jsIncludes msg "context deadline exceeded" then
        { samples := [⟨"kafka_timeout_errors", .num 1⟩,
                      ⟨"kafka_empty_reads", .num 1⟩],
          reachedMaxStop := decide (emptyReadCount + 1 ≥ MAX_EMPTY_READS),
          readerReset := false }
      else
        { samples := [⟨"kafka_reader_error_count", .num 1⟩],
          reachedMaxStop := false, readerReset := true }

/-- Sample stream of a sequence of consumer iterations (per-vu-iterations
executor: the VU invokes `default` once per iteration). -/
def consumerRunSamples (MAX_EMPTY_READS : Nat)
    (trace : List (Bool × ConsumeResult)) : List Sample :=
  (trace.map (fun t => (consumerIteration MAX_EMPTY_READS t.1 t.2).samples)).flatten

/-! ## CRUD workload (`perf_crud_tb.js`) -/

/-- The `tb.perf_test` table: the multiset of primary-key ids currently in the
table, plus the next value of the `id SERIAL` sequence. -/
structure DBState where
  rows : List Nat
  nextId : Nat
deriving DecidableEq

/-- The table `setup()` leaves behind: freshly created, empty, with the
serial sequence at 1. -/
def dbInit : DBState := { rows := [], nextId := 1 }

/-- The four `Date.now()` elapsed-time measurements of one CRUD iteration
(insert/update/select/delete); inputs from the environment clock. -/
structure Durations where
  dIns : Int
  dUpd : Int
  dSel : Int
  dDel : Int
deriving DecidableEq

/-- One invocation of the CRUD workload's `default` function
(`perf_crud_tb.js`, lines 59-113).  `insertReturnsRow` says whether the
`INSERT ... RETURNING id` query returned a row (the `id` truthiness test in
the source); when it does, the new serial id is returned and the row is in
the table.  `UPDATE`/`SELECT`/`DELETE ... WHERE id = $1` touch exactly the
rows whose id matches, and `rowsAffected()`/`rows.length` count them. -/
def crudIteration (db : DBState) (insertReturnsRow : Bool) (d : Durations) :
    DBState × List Sample :=
  let insSample : Sample := ⟨"db_insert_duration", .num d.dIns⟩
  if insertReturnsRow then
    let id := db.nextId
    let db1 : DBState := { rows := db.rows ++ [id], nextId := db.nextId + 1 }
    let updAffected := db1.rows.count id
    let selRows := db1.rows.filter (fun r => r == id)
    let delAffected := db1.rows.count id
    let db2 : DBState := { rows := db1.rows.filter (fun r => r != id), nextId := db1.nextId }
    (db2,
     [insSample,
      ⟨"rows_inserted", .num 1⟩,
      ⟨"insert_success", .tf true⟩,
      ⟨"db_update_duration", .num d.dUpd⟩,
      ⟨"rows_updated", .num (updAffected : Int)⟩,
      ⟨"update_success", .tf (updAffected == 1)⟩,
      ⟨"db_select_duration", .num d.dSel⟩,
      ⟨"rows_selected", .num (selRows.length : Int)⟩,
      ⟨"select_success", .tf (selRows.length == 1)⟩,
      ⟨"db_delete_duration", .num d.dDel⟩,
      ⟨"rows_deleted", .num (delAffected : Int)⟩,
      ⟨"delete_success", .tf (delAffected == 1)⟩])
  else
    (db, [insSample, ⟨"insert_success", .tf false⟩])

/-- A sequence of CRUD iterations threaded through the shared table state,
collecting all samples in order. -/
def crudRunFrom (db : DBState) : List (Bool × Durations) → DBState × List Sample
  | [] => (db, [])
  | (ok, d) :: rest =>
    let step := crudIteration db ok d
    let tail := crudRunFrom step.1 rest
    (tail.1, step.2 ++ tail.2)

/-- A CRUD run starting from the table `setup()` creates. -/
def crudRun (inputs : List (Bool × Durations)) : DBState × List Sample :=
  crudRunFrom dbInit inputs

/-- Well-formedness of the table state: every stored id is below the serial
sequence's next value (so a fresh id is never already present). -/
def dbWF (db : DBState) : Prop :=
  ∀ r ∈ db.rows, r < db.nextId

/-! ## Producer workloads (original `producer.js` and improved script) -/

/-- Batch size of both producer scripts. -/
def MESSAGES_PER_ITERATION : Nat := 10

/-- Decimal digit characters of a natural number: the JS template-literal
stringification of the numbers `__VU`, `__ITER` and the batch index. -/
def decChars (n : Nat) : List Char :=
  if _h : n < 10 then [Nat.digitChar n]
  else decChars (n / 10) ++ [Nat.digitChar (n % 10)]
decreasing_by exact Nat.div_lt_self (by omega) (by omega)

/-- Decimal string of a natural number. -/
def natStr (n : Nat) : String :=
  (decChars n).asString

/-- Original producer's message key: `` `key-${__VU}-${__ITER}-${i}` ``. -/
def origMessageKey (vu iter i : Nat) : String :=
  "key-" ++ natStr vu ++ "-" ++ natStr iter ++ "-" ++ natStr i

/-- Improved producer's message key: `` `${__VU}-${__ITER}-${i}` `` (then
serialized with the string schema, which preserves the content). -/
def improvedMessageKey (vu iter i : Nat) : String :=
  natStr vu ++ "-" ++ natStr iter ++ "-" ++ natStr i

/-- A message handed to `writer.produce`. -/
structure PMsg where
  key : String
  value : String
deriving DecidableEq

/-- The improved producer's batch for one iteration: the loop
`for (i = 0; i < MESSAGES_PER_ITERATION; i++)` pushing key/value pairs;
`vals i` is the JSON payload built from faker data and the clock. -/
def improvedProducerMessages (vu iter : Nat) (vals : Nat → String) : List PMsg :=
  (List.range MESSAGES_PER_ITERATION).map (fun i => ⟨improvedMessageKey vu iter i, vals i⟩)

/-- The original producer's batch for one iteration. -/
def origProducerMessages (vu iter : Nat) (vals : Nat → String) : List PMsg :=
  (List.range MESSAGES_PER_ITERATION).map (fun i => ⟨origMessageKey vu iter i, vals i⟩)

/-- `messages.reduce((acc, msg) => acc + msg.key.length + msg.value.length, 0)`. -/
def pmsgBytes (msgs : List PMsg) : Nat :=
  msgs.foldl (fun acc m => acc + m.key.length + m.value.length) 0

/-- One invocation of the improved producer's `default` function (lines
66-114): on successful produce it adds the batch's bytes to
`kafka_produced_bytes` and the batch length to `kafka_produced_messages`
(plus a passing check); on a produce error the catch block only logs and
records a failing check, adding to neither counter. -/
def improvedProducerIteration (vu iter : Nat) (vals : Nat → String)
    (produceOk : Bool) : List Sample :=
  let messages := improvedProducerMessages vu iter vals
  if produceOk then
    [⟨"kafka_produced_bytes", .num (pmsgBytes messages : Int)⟩,
     ⟨"kafka_produced_messages", .num (messages.length : Int)⟩]
  else []

/-- One invocation of the original producer's `default` function: on success
it adds the batch's bytes to `kafka_produced_bytes`; its catch block only
logs. -/
def origProducerIteration (vu iter : Nat) (vals : Nat → String)
    (produceOk : Bool) : List Sample :=
  let messages := origProducerMessages vu iter vals
  if produceOk then [⟨"kafka_produced_bytes", .num (pmsgBytes messages : Int)⟩]
  else []

/-- Sample stream of `n` iterations of the improved producer on one VU
(`__ITER` counts 0, 1, ...). -/
def improvedProducerRunSamples (vu n : Nat) (vals : Nat → Nat → String)
    (ok : Nat → Bool) : List Sample :=
  ((List.range n).map (fun iter => improvedProducerIteration vu iter (vals iter) (ok iter))).flatten

/-- Sample stream of `n` iterations of the original producer on one VU. -/
def origProducerRunSamples (vu n : Nat) (vals : Nat → Nat → String)
    (ok : Nat → Bool) : List Sample :=
  ((List.range n).map (fun iter => origProducerIteration vu iter (vals iter) (ok iter))).flatten

/-- Externally visible actions of the improved producer's `teardown`. -/
inductive TAction where
  | closeWriter
  | deleteTopic (topic : String)
  | closeConnection
deriving DecidableEq

/-- The improved producer's `teardown` function (lines 119-136): closes the
writer, deletes the topic only when `DELETE_TOPIC_ON_TEARDOWN`, then closes
the connection. -/
def improvedProducerTeardown (env : Env) : List TAction :=
  let cfg := improvedProducerConfig env
  [TAction.closeWriter]
    ++ (if cfg.DELETE_TOPIC_ON_TEARDOWN then [TAction.deleteTopic cfg.KAFKA_TOPIC] else [])
    ++ [TAction.closeConnection]

/-! ## The harness's per-VU iteration loop -/

/-- Outcome of one workload invocation as the scheduler sees it. -/
inductive IterOutcome where
  | ok
  | err (msg : String)
deriving DecidableEq

/-- State of one virtual user after its loop finishes. -/
structure VUState where
  iterationsRun : Nat
  failedIterations : Nat
  errorLog : List String
deriving DecidableEq

/-- Modelled from the spec: the virtual-user scheduler's iteration loop (the
third-party k6 runtime that invokes the workload; not code under `src/`).
Per the spec's failure semantics, an uncaught error inside a workload
invocation is recorded as a failed iteration — counted and logged — and does
not terminate the virtual user: the loop continues to the next iteration
until the budget of iterations is exhausted.  `runVULoop outcomes b` is the
VU's state after the first `b` iterations, where `outcomes k` is what
invocation `k` did. -/
def runVULoop (outcomes : Nat → IterOutcome) : Nat → VUState
  | 0 => ⟨0, 0, []⟩
  | budget + 1 =>
    let st := runVULoop outcomes budget
    match outcomes budget with
    | .ok => ⟨st.iterationsRun + 1, st.failedIterations, st.errorLog⟩
    | .err m => ⟨st.iterationsRun + 1, st.failedIterations + 1, st.errorLog ++ [m]⟩

/-- Decimal value of a digit string; left inverse of `decChars`. -/
def decodeDec (l : List Char) : Nat :=
  l.foldl (fun a c => 10 * a + (c.toNat - 48)) 0

/-- The six run-tunable environment variables the scripts actually read. -/
def tunableEnvKeys : List String :=
  ["KAFKA_BROKERS", "KAFKA_TOPIC", "KAFKA_GROUP_ID",
   "CONSUME_TIMEOUT_MS", "MAX_EMPTY_READS", "DELETE_TOPIC_ON_TEARDOWN"]

/-- An environment with every run-tunable variable set. -/
def envAllTunablesSet : Env := fun k =>
  if k = "KAFKA_BROKERS" then some "b1:1,b2:2"
  else if k = "KAFKA_TOPIC" then some "t"
  else if k = "KAFKA_GROUP_ID" then some "g"
  else if k = "CONSUME_TIMEOUT_MS" then some "250"
  else if k = "MAX_EMPTY_READS" then some "7"
  else if k = "DELETE_TOPIC_ON_TEARDOWN" then some "true"
  else none

/-! ## Theorems -/

/-- C1: with `MAX_EMPTY_READS = 5`, the spec's scenario says 5 consecutive
empty (or timed-out) reads make the virtual user stop iterating without a
real-error sample.  The code instead resets its `emptyReadCount` local on
every invocation of `default`, so over 5 consecutive empty reads the
"reached max empty reads, stopping" early-return never executes, and each
empty read also records 1 on `kafka_reader_error_count` through the failed
`messages were consumed` check: the run shown here accumulates 5 real-error
samples and never stops. -/
theorem consumer_maxEmptyReads_unreachable :
    ((List.replicate 5 ((false, ConsumeResult.batch []) : Bool × ConsumeResult)).map
        (fun t => (consumerIteration 5 t.1 t.2).reachedMaxStop)).all (fun b => !b) = true
    ∧ seriesTotal "kafka_reader_error_count"
        (consumerRunSamples 5 (List.replicate 5 (false, ConsumeResult.batch []))) = 5
    ∧ seriesTotal "kafka_empty_reads"
        (consumerRunSamples 5 (List.replicate 5 (false, ConsumeResult.batch []))) = 5 := by
  decide

/-- C4: every error thrown by `reader.consume` is classified by the consumer's
catch block into exactly one of the two outcome classes: either it is a
timeout (message contains 'context deadline exceeded'), recording 1 on
`kafka_timeout_errors` and nothing on `kafka_reader_error_count`, or it is a
real error, recording 1 on `kafka_reader_error_count` and nothing on
`kafka_timeout_errors`; no error is counted in both. -/
theorem consume_error_exactly_one_class (MAX : Nat) (msg : String) :
    (seriesTotal "kafka_timeout_errors" (consumerIteration MAX false (.err msg)).samples = 1
      ∧ seriesTotal "kafka_reader_error_count" (consumerIteration MAX false (.err msg)).samples = 0)
    ∨ (seriesTotal "kafka_timeout_errors" (consumerIteration MAX false (.err msg)).samples = 0
      ∧ seriesTotal "kafka_reader_error_count" (consumerIteration MAX false (.err msg)).samples = 1) := by
  cases h : jsIncludes msg "context deadline exceeded"
  · right
    simp [consumerIteration, h, seriesTotal, sampleContrib, MVal.toNum]
  · left
    simp [consumerIteration, h, seriesTotal, sampleContrib, MVal.toNum]

theorem seriesTotal_append (name : String) (l1 l2 : List Sample) :
    seriesTotal name (l1 ++ l2) = seriesTotal name l1 + seriesTotal name l2 := by
  simp [seriesTotal]

theorem crudIteration_balanced (db : DBState) (ok : Bool) (d : Durations) (h : dbWF db) :
    seriesTotal "rows_inserted" (crudIteration db ok d).2
      = seriesTotal "rows_deleted" (crudIteration db ok d).2
    ∧ dbWF (crudIteration db ok d).1 := by
  have h0 : db.rows.count db.nextId = 0 :=
    List.count_eq_zero.mpr (fun hmem => absurd (h _ hmem) (lt_irrefl _))
  cases ok with
  | false =>
    refine ⟨by simp [crudIteration, seriesTotal, sampleContrib], ?_⟩
    simpa [crudIteration] using h
  | true =>
    constructor
    · simp [crudIteration, seriesTotal, sampleContrib, MVal.toNum, List.count_append, h0]
    · have e : (crudIteration db true d).1
          = { rows := (db.rows ++ [db.nextId]).filter (fun x => x != db.nextId),
              nextId := db.nextId + 1 } := by simp [crudIteration]
      rw [e]
      intro r hr
      simp only [List.mem_filter] at hr
      rcases List.mem_append.mp hr.1 with h1 | h1
      · exact Nat.lt_succ_of_lt (h r h1)
      · exfalso
        simp only [List.mem_singleton] at h1
        subst h1
        simp at hr

theorem crudRunFrom_balanced (inputs : List (Bool × Durations)) :
    ∀ db, dbWF db →
      seriesTotal "rows_inserted" (crudRunFrom db inputs).2
        = seriesTotal "rows_deleted" (crudRunFrom db inputs).2 := by
  induction inputs with
  | nil => intro db _; simp [crudRunFrom, seriesTotal]
  | cons x rest ih =>
    intro db h
    obtain ⟨ok, d⟩ := x
    obtain ⟨hbal, hwf⟩ := crudIteration_balanced db ok d h
    simp only [crudRunFrom, seriesTotal_append]
    rw [hbal, ih _ hwf]

/-- C2: over any CRUD run from the freshly created table, with every
iteration either pairing its successful insert with its matching delete or
recording a failed insert and doing nothing else, the `rows_inserted`
aggregate equals the `rows_deleted` aggregate at run end: each successful
insert adds 1 to `rows_inserted`, and the iteration's `DELETE ... WHERE id`
of that fresh id affects exactly one row, adding 1 to `rows_deleted`. -/
theorem crud_rowsInserted_eq_rowsDeleted (inputs : List (Bool × Durations)) :
    seriesTotal "rows_inserted" (crudRun inputs).2
      = seriesTotal "rows_deleted" (crudRun inputs).2 :=
  crudRunFrom_balanced inputs dbInit (by intro r hr; simp [dbInit] at hr)

/-- C8 counterexample: when the `INSERT ... RETURNING id` query returns zero
rows, the iteration records two samples, not exactly one as claimed: the
unconditional `insertTrend.add` duration observation on `db_insert_duration`
precedes the `id` check, in addition to the false `insert_success`
observation. -/
theorem crud_failed_insert_two_samples :
    (crudIteration dbInit false ⟨0, 0, 0, 0⟩).2
      = [⟨"db_insert_duration", .num 0⟩, ⟨"insert_success", .tf false⟩]
    ∧ ((crudIteration dbInit false ⟨0, 0, 0, 0⟩).2).length ≠ 1 := by
  decide

/-- C8 (amended): when the INSERT returns zero rows the iteration performs no
UPDATE, SELECT, or DELETE and records exactly two samples — the
insert-duration trend observation and a false observation on the
`insert_success` rate — leaving the table state, the four `rows_*` counters,
and the update/select/delete trend and rate series unchanged. -/
theorem crud_failed_insert_frame (db : DBState) (d : Durations) :
    (crudIteration db false d).1 = db
    ∧ (crudIteration db false d).2
        = [⟨"db_insert_duration", .num d.dIns⟩, ⟨"insert_success", .tf false⟩]
    ∧ ∀ name ∈ (["rows_inserted", "rows_updated", "rows_selected", "rows_deleted",
          "db_update_duration", "db_select_duration", "db_delete_duration",
          "update_success", "select_success", "delete_success"] : List String),
        seriesTotal name (crudIteration db false d).2 = 0 := by
  refine ⟨by simp [crudIteration], by simp [crudIteration], ?_⟩
  intro name hname
  fin_cases hname <;> simp [crudIteration, seriesTotal, sampleContrib]

/-- C8 amended-claim witness at a concrete iteration. -/
theorem crud_failed_insert_frame_witness :
    seriesTotal "rows_inserted" (crudIteration dbInit false ⟨0, 0, 0, 0⟩).2 = 0 :=
  (crud_failed_insert_frame dbInit ⟨0, 0, 0, 0⟩).2.2 "rows_inserted" (by decide)

theorem improvedProducerIteration_messages_total (vu iter : Nat) (vals : Nat → String) :
    seriesTotal "kafka_produced_messages" (improvedProducerIteration vu iter vals true) = 10 := by
  simp [improvedProducerIteration, improvedProducerMessages, MESSAGES_PER_ITERATION,
    seriesTotal, sampleContrib, MVal.toNum]

theorem improvedProducerRun_messages_total (vu : Nat) (vals : Nat → Nat → String)
    (ok : Nat → Bool) :
    ∀ n, (∀ it, it < n → ok it = true) →
      seriesTotal "kafka_produced_messages" (improvedProducerRunSamples vu n vals ok)
        = 10 * n := by
  intro n
  induction n with
  | zero => intro _; simp [improvedProducerRunSamples, seriesTotal]
  | succ k ih =>
    intro h
    have hk : ok k = true := h k (Nat.lt_succ_self k)
    have ih' := ih (fun it hit => h it (Nat.lt_succ_of_lt hit))
    simp only [improvedProducerRunSamples, List.range_succ, List.map_append,
      List.flatten_append] at ih' ⊢
    rw [seriesTotal_append, ih']
    simp only [List.map_cons, List.map_nil, List.flatten, List.append_nil, hk]
    rw [improvedProducerIteration_messages_total]
    push_cast
    ring

/-- C6: in the improved producer, every error-free iteration adds exactly the
batch length `MESSAGES_PER_ITERATION = 10` to the `kafka_produced_messages`
counter, so a run of 10 iterations with no produce errors ends with the
counter at 100. -/
theorem producer_ten_iterations_hundred_messages (vu : Nat)
    (vals : Nat → Nat → String) (ok : Nat → Bool)
    (h : ∀ it, it < 10 → ok it = true) :
    seriesTotal "kafka_produced_messages" (improvedProducerRunSamples vu 10 vals ok) = 100 := by
  have := improvedProducerRun_messages_total vu vals ok 10 h
  simpa using this

/-- C6 witness: a concrete error-free 10-iteration run. -/
theorem producer_ten_iterations_hundred_messages_witness :
    seriesTotal "kafka_produced_messages"
      (improvedProducerRunSamples 1 10 (fun _ _ => "v") (fun _ => true)) = 100 :=
  producer_ten_iterations_hundred_messages 1 (fun _ _ => "v") (fun _ => true)
    (fun _ _ => rfl)

/-- C9: the improved producer's teardown deletes the topic exactly when the
environment variable `DELETE_TOPIC_ON_TEARDOWN` is the string `'true'`
(strict `===` comparison); for every other environment — the variable
absent, or set to `'True'`, `'TRUE'`, `'1'`, or anything else — the teardown
only closes the writer and the connection, preserving the topic. -/
theorem teardown_delete_iff_true (env : Env) :
    (TAction.deleteTopic (improvedProducerConfig env).KAFKA_TOPIC
        ∈ improvedProducerTeardown env
      ↔ env "DELETE_TOPIC_ON_TEARDOWN" = some "true")
    ∧ (env "DELETE_TOPIC_ON_TEARDOWN" ≠ some "true" →
        improvedProducerTeardown env = [TAction.closeWriter, TAction.closeConnection]) := by
  by_cases h : env "DELETE_TOPIC_ON_TEARDOWN" = some "true"
  · refine ⟨?_, fun hc => absurd h hc⟩
    simp [improvedProducerTeardown, improvedProducerConfig, h]
  · refine ⟨?_, fun _ => ?_⟩ <;>
      simp [improvedProducerTeardown, improvedProducerConfig, h]

/-- C9 witness: with `DELETE_TOPIC_ON_TEARDOWN='TRUE'` (capitalized, so not
strictly equal to `'true'`) the teardown closes writer and connection only. -/
theorem teardown_delete_iff_true_witness :
    improvedProducerTeardown
        (fun k => if k = "DELETE_TOPIC_ON_TEARDOWN" then some "TRUE" else none)
      = [TAction.closeWriter, TAction.closeConnection] :=
  (teardown_delete_iff_true
      (fun k => if k = "DELETE_TOPIC_ON_TEARDOWN" then some "TRUE" else none)).2
    (by decide)

/-- C5: in the harness's per-VU loop (modelled from the spec), a workload
invocation that raises an uncaught error is counted as a failed iteration and
its message logged, and the virtual user is not terminated: the loop always
runs its full iteration budget, with the failed count equal to the number of
erroring invocations and every error's message present in the log. -/
theorem vu_loop_survives_errors (outcomes : Nat → IterOutcome) (budget : Nat) :
    (runVULoop outcomes budget).iterationsRun = budget
    ∧ (runVULoop outcomes budget).failedIterations
        = ((List.range budget).filter (fun i => outcomes i != IterOutcome.ok)).length
    ∧ ∀ i, i < budget → ∀ m, outcomes i = .err m →
        m ∈ (runVULoop outcomes budget).errorLog := by
  induction budget with
  | zero =>
    exact ⟨rfl, by simp [runVULoop], fun i hi => absurd hi (by omega)⟩
  | succ k ih =>
    obtain ⟨ih1, ih2, ih3⟩ := ih
    refine ⟨?_, ?_, ?_⟩
    · cases h : outcomes k <;> simp [runVULoop, h, ih1]
    · cases h : outcomes k <;>
        simp [runVULoop, h, ih2, List.range_succ, List.filter_append]
    · intro i hi m hm
      rcases Nat.lt_succ_iff_lt_or_eq.mp hi with hlt | heq
      · have hmem := ih3 i hlt m hm
        cases h : outcomes k
        · simpa [runVULoop, h] using hmem
        · simp [runVULoop, h]
          exact Or.inl hmem
      · subst heq
        simp [runVULoop, hm]

theorem digitChar_ne_dash (d : Nat) (h : d < 10) : Nat.digitChar d ≠ '-' := by
  interval_cases d <;> decide

theorem digitChar_val (d : Nat) (h : d < 10) : (Nat.digitChar d).toNat - 48 = d := by
  interval_cases d <;> decide

theorem decChars_ne_dash (n : Nat) : ∀ c ∈ decChars n, c ≠ '-' := by
  induction n using Nat.strong_induction_on with
  | _ n ih =>
    rw [decChars]
    split
    · rename_i h
      intro c hc
      simp only [List.mem_singleton] at hc
      subst hc
      exact digitChar_ne_dash n h
    · rename_i h
      intro c hc
      rcases List.mem_append.mp hc with h1 | h1
      · exact ih (n / 10) (Nat.div_lt_self (by omega) (by omega)) c h1
      · simp only [List.mem_singleton] at h1
        subst h1
        exact digitChar_ne_dash (n % 10) (Nat.mod_lt _ (by omega))

theorem decodeDec_decChars (n : Nat) : decodeDec (decChars n) = n := by
  induction n using Nat.strong_induction_on with
  | _ n ih =>
    rw [decChars]
    split
    · rename_i h
      interval_cases n <;> decide
    · rename_i h
      have ihr := ih (n / 10) (Nat.div_lt_self (by omega) (by omega))
      have hd := digitChar_val (n % 10) (Nat.mod_lt _ (by omega))
      simp only [decodeDec, List.foldl_append, List.foldl_cons, List.foldl_nil] at ihr ⊢
      rw [ihr, hd]
      omega

theorem decChars_inj (m n : Nat) (h : decChars m = decChars n) : m = n := by
  have hm := decodeDec_decChars m
  rw [h, decodeDec_decChars] at hm
  exact hm.symm

theorem append_dash_inj (xs1 : List Char) :
    ∀ xs2 ys1 ys2 : List Char,
      (∀ c ∈ xs1, c ≠ '-') → (∀ c ∈ xs2, c ≠ '-') →
      xs1 ++ '-' :: ys1 = xs2 ++ '-' :: ys2 → xs1 = xs2 ∧ ys1 = ys2 := by
  induction xs1 with
  | nil =>
    intro xs2 ys1 ys2 _ h2 h
    cases xs2 with
    | nil => simpa using h
    | cons b u =>
      injection h with hb _
      exact absurd hb.symm (h2 b (by simp))
  | cons a t ih =>
    intro xs2 ys1 ys2 h1 h2 h
    cases xs2 with
    | nil =>
      injection h with ha _
      exact absurd ha (h1 a (by simp))
    | cons b u =>
      injection h with hab hrest
      subst hab
      obtain ⟨e1, e2⟩ :=
        ih u ys1 ys2 (fun c hc => h1 c (by simp [hc])) (fun c hc => h2 c (by simp [hc])) hrest
      exact ⟨by rw [e1], e2⟩

theorem improvedMessageKey_data (vu iter i : Nat) :
    (improvedMessageKey vu iter i).data
      = decChars vu ++ '-' :: (decChars iter ++ '-' :: decChars i) := by
  simp [improvedMessageKey, natStr, String.data_append,
    show ("-" : String).data = ['-'] from rfl,
    show ∀ l : List Char, l.asString.data = l from fun _ => rfl]

theorem origMessageKey_data (vu iter i : Nat) :
    (origMessageKey vu iter i).data
      = 'k' :: 'e' :: 'y' :: '-' :: (decChars vu ++ '-' :: (decChars iter ++ '-' :: decChars i)) := by
  simp [origMessageKey, natStr, String.data_append,
    show ("key-" : String).data = ['k', 'e', 'y', '-'] from rfl,
    show ("-" : String).data = ['-'] from rfl,
    show ∀ l : List Char, l.asString.data = l from fun _ => rfl]

theorem improvedMessageKey_inj (v1 t1 s1 v2 t2 s2 : Nat)
    (h : improvedMessageKey v1 t1 s1 = improvedMessageKey v2 t2 s2) :
    v1 = v2 ∧ t1 = t2 ∧ s1 = s2 := by
  have hd : (improvedMessageKey v1 t1 s1).data = (improvedMessageKey v2 t2 s2).data := by
    rw [h]
  rw [improvedMessageKey_data, improvedMessageKey_data] at hd
  obtain ⟨e1, erest⟩ :=
    append_dash_inj _ _ _ _ (decChars_ne_dash v1) (decChars_ne_dash v2) hd
  obtain ⟨e2, e3⟩ :=
    append_dash_inj _ _ _ _ (decChars_ne_dash t1) (decChars_ne_dash t2) erest
  exact ⟨decChars_inj _ _ e1, decChars_inj _ _ e2, decChars_inj _ _ e3⟩

theorem origMessageKey_inj (v1 t1 s1 v2 t2 s2 : Nat)
    (h : origMessageKey v1 t1 s1 = origMessageKey v2 t2 s2) :
    v1 = v2 ∧ t1 = t2 ∧ s1 = s2 := by
  have hd : (origMessageKey v1 t1 s1).data = (origMessageKey v2 t2 s2).data := by
    rw [h]
  rw [origMessageKey_data, origMessageKey_data] at hd
  injection hd with _ hd
  injection hd with _ hd
  injection hd with _ hd
  injection hd with _ hd
  obtain ⟨e1, erest⟩ :=
    append_dash_inj _ _ _ _ (decChars_ne_dash v1) (decChars_ne_dash v2) hd
  obtain ⟨e2, e3⟩ :=
    append_dash_inj _ _ _ _ (decChars_ne_dash t1) (decChars_ne_dash t2) erest
  exact ⟨decChars_inj _ _ e1, decChars_inj _ _ e2, decChars_inj _ _ e3⟩

/-- C10: in both producer workloads the message key is built from the triple
(virtual-user id, iteration number, in-batch index), and distinct triples
always yield distinct keys — the decimal renderings of the three numbers are
dash-free, so the dash-separated key determines the triple.  Hence any two
distinct messages of a run (which differ in their triple) have distinct
keys. -/
theorem producer_keys_injective (v1 t1 s1 v2 t2 s2 : Nat)
    (h : (v1, t1, s1) ≠ (v2, t2, s2)) :
    origMessageKey v1 t1 s1 ≠ origMessageKey v2 t2 s2
    ∧ improvedMessageKey v1 t1 s1 ≠ improvedMessageKey v2 t2 s2 := by
  constructor
  · intro he
    obtain ⟨a, b, c⟩ := origMessageKey_inj v1 t1 s1 v2 t2 s2 he
    exact h (by rw [a, b, c])
  · intro he
    obtain ⟨a, b, c⟩ := improvedMessageKey_inj v1 t1 s1 v2 t2 s2 he
    exact h (by rw [a, b, c])

/-- C10 witness: two messages of the same batch differing only in the
in-batch index get distinct keys in both producers. -/
theorem producer_keys_injective_witness :
    origMessageKey 1 2 3 ≠ origMessageKey 1 2 4
    ∧ improvedMessageKey 1 2 3 ≠ improvedMessageKey 1 2 4 :=
  producer_keys_injective 1 2 3 1 2 4 (by decide)

/-- C3 counterexample: the claim's variable names are not the ones the code
reads.  Setting `BROKER_ADDRS` (the name the claim gives for the broker
list) has no effect: the resulting configuration is identical to the one
from an empty environment, and the broker list stays at the default
`localhost:9092` instead of the value that was set. -/
theorem config_spec_names_ignored :
    consumerConfig (fun k => if k = "BROKER_ADDRS" then some "kafka1:9092" else none)
      = consumerConfig (fun _ => none)
    ∧ (consumerConfig
        (fun k => if k = "BROKER_ADDRS" then some "kafka1:9092" else none)).KAFKA_BROKERS
      = ["localhost:9092"]
    ∧ (["localhost:9092"] : List String) ≠ ["kafka1:9092"] := by
  decide

/-- C3 (amended): the run-tunable configuration is read from exactly the
environment variables `KAFKA_BROKERS` (comma-separated host:port list),
`KAFKA_TOPIC`, `KAFKA_GROUP_ID`, `CONSUME_TIMEOUT_MS`, `MAX_EMPTY_READS`
and `DELETE_TOPIC_ON_TEARDOWN`: two environments agreeing on those six
variables yield identical consumer and producer configurations; an empty
environment yields the documented defaults; and an environment setting all
six determines each corresponding configuration value. -/
theorem config_kafka_env_vars (e1 e2 : Env)
    (h : ∀ k ∈ tunableEnvKeys, e1 k = e2 k) :
    (consumerConfig e1 = consumerConfig e2
      ∧ improvedProducerConfig e1 = improvedProducerConfig e2)
    ∧ consumerConfig (fun _ => none)
        = ⟨["localhost:9092"], "my-test-topic", "k6-consumer-group", some 2000, some 5⟩
    ∧ improvedProducerConfig (fun _ => none)
        = ⟨["localhost:9094"], "my-test-topic", false⟩
    ∧ consumerConfig envAllTunablesSet = ⟨["b1:1", "b2:2"], "t", "g", some 250, some 7⟩
    ∧ improvedProducerConfig envAllTunablesSet = ⟨["b1:1", "b2:2"], "t", true⟩ := by
  have h1 := h "KAFKA_BROKERS" (by decide)
  have h2 := h "KAFKA_TOPIC" (by decide)
  have h3 := h "KAFKA_GROUP_ID" (by decide)
  have h4 := h "CONSUME_TIMEOUT_MS" (by decide)
  have h5 := h "MAX_EMPTY_READS" (by decide)
  have h6 := h "DELETE_TOPIC_ON_TEARDOWN" (by decide)
  refine ⟨⟨?_, ?_⟩, by decide, by decide, by decide, by decide⟩
  · simp [consumerConfig, envOr, h1, h2, h3, h4, h5]
  · simp [improvedProducerConfig, envOr, h1, h2, h6]

/-- C3 amended-claim witness: defaults from the empty environment. -/
theorem config_kafka_env_vars_witness :
    consumerConfig (fun _ => none)
      = ⟨["localhost:9092"], "my-test-topic", "k6-consumer-group", some 2000, some 5⟩ :=
  (config_kafka_env_vars (fun _ => none) (fun _ => none) (fun _ _ => rfl)).2.1

theorem head?_scanl (f : Int → Sample → Int) (a : Int) (l : List Sample) :
    (l.scanl f a).head? = some a := by
  cases l <;> rfl

theorem chain_scanl_add (c : Sample → Int) (l : List Sample)
    (hc : ∀ s ∈ l, 0 ≤ c s) :
    ∀ a : Int, List.Chain' (· ≤ ·) (l.scanl (fun acc s => acc + c s) a) := by
  induction l with
  | nil => intro a; simp
  | cons s t ih =>
    intro a
    rw [List.scanl, List.chain'_cons']
    refine ⟨?_, ih (fun x hx => hc x (by simp [hx])) (a + c s)⟩
    intro y hy
    rw [head?_scanl] at hy
    simp only [Option.mem_def, Option.some.injEq] at hy
    subst hy
    have := hc s (by simp)
    omega

theorem contrib_nonneg (name : String) (h : isCounterSeries name = true)
    (l : List Sample)
    (hl : ∀ s ∈ l, isCounterSeries s.series = true → 0 ≤ s.val.toNum) :
    ∀ s ∈ l, 0 ≤ sampleContrib name s := by
  intro s hs
  unfold sampleContrib
  by_cases he : s.series = name
  · rw [if_pos he]
    exact hl s hs (he ▸ h)
  · rw [if_neg he]

theorem counterSafe_consumerIteration (MAX : Nat) (rf : Bool) (res : ConsumeResult) :
    ∀ s ∈ (consumerIteration MAX rf res).samples,
      isCounterSeries s.series = true → 0 ≤ s.val.toNum := by
  intro s hs _
  cases rf with
  | true =>
    simp [consumerIteration] at hs
    subst hs
    simp [MVal.toNum]
  | false =>
    cases res with
    | batch msgs =>
      by_cases hl : msgs.length > 0
      · simp [consumerIteration, hl, Nat.not_eq_zero_of_lt hl] at hs
        rcases hs with hs | hs <;> subst hs <;> simp [MVal.toNum]
      · simp [consumerIteration, hl] at hs
        rcases hs with hs | hs <;> subst hs <;> simp [MVal.toNum]
    | err msg =>
      by_cases ht : jsIncludes msg "context deadline exceeded"
      · simp [consumerIteration, ht] at hs
        rcases hs with hs | hs <;> subst hs <;> simp [MVal.toNum]
      · simp [consumerIteration, ht] at hs
        subst hs
        simp [MVal.toNum]

theorem counterSafe_crudIteration (db : DBState) (ok : Bool) (d : Durations) :
    ∀ s ∈ (crudIteration db ok d).2,
      isCounterSeries s.series = true → 0 ≤ s.val.toNum := by
  intro s hs hcs
  cases ok with
  | false =>
    simp [crudIteration] at hs
    rcases hs with hs | hs <;> subst hs <;> simp_all [isCounterSeries, counterSeriesNames]
  | true =>
    simp [crudIteration] at hs
    rcases hs with hs | hs | hs | hs | hs | hs | hs | hs | hs | hs | hs | hs <;>
      subst hs <;>
      simp_all [isCounterSeries, counterSeriesNames, MVal.toNum] <;>
      positivity

theorem counterSafe_improvedProducerIteration (vu iter : Nat) (vals : Nat → String)
    (ok : Bool) :
    ∀ s ∈ improvedProducerIteration vu iter vals ok,
      isCounterSeries s.series = true → 0 ≤ s.val.toNum := by
  intro s hs _
  cases ok with
  | false => simp [improvedProducerIteration] at hs
  | true =>
    simp [improvedProducerIteration] at hs
    rcases hs with hs | hs <;> subst hs <;> simp [MVal.toNum]

theorem counterSafe_origProducerIteration (vu iter : Nat) (vals : Nat → String)
    (ok : Bool) :
    ∀ s ∈ origProducerIteration vu iter vals ok,
      isCounterSeries s.series = true → 0 ≤ s.val.toNum := by
  intro s hs _
  cases ok with
  | false => simp [origProducerIteration] at hs
  | true =>
    simp [origProducerIteration] at hs
    subst hs
    simp [MVal.toNum]

theorem counterSafe_consumerRun (MAX : Nat) (trace : List (Bool × ConsumeResult)) :
    ∀ s ∈ consumerRunSamples MAX trace,
      isCounterSeries s.series = true → 0 ≤ s.val.toNum := by
  intro s hs
  simp only [consumerRunSamples, List.mem_flatten, List.mem_map] at hs
  obtain ⟨l, ⟨t, _, rfl⟩, hsl⟩ := hs
  exact counterSafe_consumerIteration MAX t.1 t.2 s hsl

theorem counterSafe_crudRunFrom (inputs : List (Bool × Durations)) :
    ∀ db, ∀ s ∈ (crudRunFrom db inputs).2,
      isCounterSeries s.series = true → 0 ≤ s.val.toNum := by
  induction inputs with
  | nil => intro db s hs; simp [crudRunFrom] at hs
  | cons x rest ih =>
    intro db s hs
    obtain ⟨ok, d⟩ := x
    simp only [crudRunFrom, List.mem_append] at hs
    rcases hs with hs | hs
    · exact counterSafe_crudIteration db ok d s hs
    · exact ih _ s hs

theorem counterSafe_improvedProducerRun (vu n : Nat) (vals : Nat → Nat → String)
    (ok : Nat → Bool) :
    ∀ s ∈ improvedProducerRunSamples vu n vals ok,
      isCounterSeries s.series = true → 0 ≤ s.val.toNum := by
  intro s hs
  simp only [improvedProducerRunSamples, List.mem_flatten, List.mem_map] at hs
  obtain ⟨l, ⟨it, _, rfl⟩, hsl⟩ := hs
  exact counterSafe_improvedProducerIteration vu it (vals it) (ok it) s hsl

theorem counterSafe_origProducerRun (vu n : Nat) (vals : Nat → Nat → String)
    (ok : Nat → Bool) :
    ∀ s ∈ origProducerRunSamples vu n vals ok,
      isCounterSeries s.series = true → 0 ≤ s.val.toNum := by
  intro s hs
  simp only [origProducerRunSamples, List.mem_flatten, List.mem_map] at hs
  obtain ⟨l, ⟨it, _, rfl⟩, hsl⟩ := hs
  exact counterSafe_origProducerIteration vu it (vals it) (ok it) s hsl

/-- C7: every value any of the four workloads adds to a Counter series is
non-negative (batch lengths, byte totals, affected-row counts, and the
constant 1), so along any run of any workload the running aggregate of every
Counter series is monotonically non-decreasing. -/
theorem counter_series_monotone (name : String) (h : isCounterSeries name = true)
    (MAX : Nat) (trace : List (Bool × ConsumeResult))
    (inputs : List (Bool × Durations))
    (vu n : Nat) (vals : Nat → Nat → String) (ok : Nat → Bool)
    (vu2 n2 : Nat) (vals2 : Nat → Nat → String) (ok2 : Nat → Bool) :
    List.Chain' (· ≤ ·) (runningTotals name (consumerRunSamples MAX trace))
    ∧ List.Chain' (· ≤ ·) (runningTotals name (crudRun inputs).2)
    ∧ List.Chain' (· ≤ ·) (runningTotals name (improvedProducerRunSamples vu n vals ok))
    ∧ List.Chain' (· ≤ ·) (runningTotals name (origProducerRunSamples vu2 n2 vals2 ok2)) :=
  ⟨chain_scanl_add _ _ (contrib_nonneg name h _ (counterSafe_consumerRun MAX trace)) 0,
   chain_scanl_add _ _ (contrib_nonneg name h _ (counterSafe_crudRunFrom inputs dbInit)) 0,
   chain_scanl_add _ _
     (contrib_nonneg name h _ (counterSafe_improvedProducerRun vu n vals ok)) 0,
   chain_scanl_add _ _
     (contrib_nonneg name h _ (counterSafe_origProducerRun vu2 n2 vals2 ok2)) 0⟩

/-- C7 witness: the `rows_inserted` running totals of a concrete CRUD run
form a non-decreasing chain. -/
theorem counter_series_monotone_witness :
    List.Chain' (· ≤ ·) (runningTotals "rows_inserted" (crudRun [(true, ⟨1, 1, 1, 1⟩)]).2) :=
  (counter_series_monotone "rows_inserted" (by decide) 5 [] [(true, ⟨1, 1, 1, 1⟩)]
      1 0 (fun _ _ => "") (fun _ => true) 1 0 (fun _ _ => "") (fun _ => true)).2.1
/-- C5 witness: a 3-iteration budget where invocation 1 raises an error still
runs all 3 iterations and logs the error's message. -/
theorem vu_loop_survives_errors_witness :
    (runVULoop (fun i => if i = 1 then IterOutcome.err "boom" else IterOutcome.ok) 3).iterationsRun = 3
    ∧ "boom" ∈ (runVULoop (fun i => if i = 1 then IterOutcome.err "boom" else IterOutcome.ok) 3).errorLog :=
  ⟨(vu_loop_survives_errors (fun i => if i = 1 then IterOutcome.err "boom" else IterOutcome.ok) 3).1,
   (vu_loop_survives_errors (fun i => if i = 1 then IterOutcome.err "boom" else IterOutcome.ok) 3).2.2
     1 (by decide) "boom" (by decide)⟩
